import Mathlib

/-!
Verification of the pflow-rs content-addressable blob gateway.

The HTTP handlers (`src_handler`, `model_handler`, `index_handler`,
`string_to_zblob`, `index_response`, `index_response_redirect`, `app`) are
embedded from `src/server.rs`.  The collaborators that `server.rs` imports
from elsewhere in the repository — the `Storage` blob store, the `Zblob`
record, the `oid` content hasher, the `compression` codec and the
`INHIBIT_TEST` fixture — are not under `src/`, so they are modelled from the
specification, as the doc comments of those definitions state.
-/

namespace Pflow

/-- Stored record of the blob store, mirroring `Zblob` from the repository's
storage module (used by `src/server.rs`; the struct itself is not under
`src/`). Modelled from the spec: `{ id, cid, encoded_payload, title,
description, keywords, referrer }`; `id = 0` is the default (absent)
sentinel. Field names follow the uses in `src/server.rs`
(`ipfs_cid`, `base64_zipped`, `title`, `description`, `keywords`,
`referrer`, `id`). -/
structure Zblob where
  id : Nat
  ipfs_cid : String
  base64_zipped : String
  title : String
  description : String
  keywords : String
  referrer : String
deriving Repr, DecidableEq

/-- The `Zblob::default()` value used throughout `src/server.rs`: id 0 and
all string fields empty. -/
def Zblob.default : Zblob := ⟨0, "", "", "", "", "", ""⟩

/-- Modelled from the spec: the archive entry header. The `compression`
module (`zip_encoded`/`unzip_encoded`) is not under `src/`; the spec asks
for a reversible pack of `(document_bytes, entry_name)` into one printable
text blob, so the model tags the payload with a length-prefixed entry
name. -/
def entryHeader (name : String) : List Char :=
  'Z' :: (Nat.toDigits 10 name.length ++ ':' :: name.data)

/-- Modelled from the spec: `ArchiveCodec.encode` / `zip_encoded`
(missing from `src/`): packs document bytes under an entry name into a
single printable text blob. -/
def zip_encoded (d : String) (name : String) : String :=
  String.mk (entryHeader name ++ d.data)

/-- Modelled from the spec: `unzip_encoded` (missing from `src/`), the
fallible unpack used by `src/server.rs` with `.unwrap_or("")`: it returns
the entry payload when the blob carries the requested entry name, and
nothing on any structural problem. -/
def unzip_encoded (blob : String) (name : String) : Option String :=
  let h := entryHeader name
  if blob.data.take h.length = h then
    some (String.mk (blob.data.drop h.length))
  else
    none

/-- Modelled from the spec: `ArchiveCodec.decode` — the total decode whose
failure policy substitutes an empty byte sequence for any structural
problem (the composition of `unzip_encoded` with the `.unwrap_or("")`
fallback that every read path in `src/server.rs` applies). -/
def decode (blob : String) (name : String) : String :=
  (unzip_encoded blob name).getD ""

/-- Modelled from the spec: the fixed JSON test document of the concrete
scenario in §8 (the `fixtures::INHIBIT_TEST` source is not under `src/`).
It stands for the UTF-8 JSON body of the fixture's single archive entry. -/
def INHIBIT_TEST_DOC : String := "\x7b\"modelType\":\"petriNet\"\x7d"

/-- Modelled from the spec: the `INHIBIT_TEST` fixture string, a text blob
holding `INHIBIT_TEST_DOC` under entry name `"model.json"` (§6 wire
format). -/
def INHIBIT_TEST : String := zip_encoded INHIBIT_TEST_DOC "model.json"

/-- The fixed CID the spec's concrete scenario asserts for the
`INHIBIT_TEST` blob. -/
def FIXED_CID : String := "zb2rhjSDP7JbLBEjfeThBdnE2va1sTahmDkooKB9VYGD67tf5"

/-- Modelled from the spec: `ContentHasher.compute`, the `oid::Oid::new`
hash used by `string_to_zblob` in `src/server.rs` (the `oid` module is not
under `src/`). The spec requires determinism over the exact bytes supplied,
that different encodings map to different identifiers, and the fixed value
`FIXED_CID` on the `INHIBIT_TEST` fixture, so the model is a deterministic
injective function pinned to that value on the fixture. -/
def oid_compute (s : String) : String :=
  if s = INHIBIT_TEST then FIXED_CID else "CID:" ++ s

/-- Entry of the blob store: a record together with the collection it was
inserted into. Modelled from the spec (§3): collections are independent
keyspaces of Blobs. -/
structure Entry where
  collection : String
  blob : Zblob
deriving Repr, DecidableEq

/-- Modelled from the spec: the state of the `Storage` blob store (the
`storage` module used by `src/server.rs` is not under `src/`): a table of
entries, newest first. -/
abbrev Store := List Entry

/-- Number of records a collection holds. -/
def countOf (col : String) (s : Store) : Nat :=
  s.countP (fun e => e.collection == col)

/-- Modelled from the spec: `Storage::get_by_cid` — a pure point lookup of
`(collection, cid)` returning an explicit optional. -/
def get_by_cid (s : Store) (col : String) (cid : String) : Option Zblob :=
  (s.find? (fun e => e.collection == col && e.blob.ipfs_cid == cid)).map Entry.blob

/-- Modelled from the spec: `Storage::create_or_retrieve` — look up
`(collection, cid)`; if present return the existing Blob unchanged
(other arguments ignored); if absent assign the next per-collection id
(`countOf + 1`, so ids start at 1 and increase), insert, and return the
new Blob together with the new store state. -/
def create_or_retrieve (s : Store) (col : String) (cid : String)
    (payload : String) (title : String) (descr : String)
    (keywords : String) (referrer : String) : Zblob × Store :=
  match get_by_cid s col cid with
  | some b => (b, s)
  | none =>
    let b : Zblob := ⟨countOf col s + 1, cid, payload, title, descr, keywords, referrer⟩
    (b, ⟨col, b⟩ :: s)

/-- Modelled from the spec: `Storage::reset_db` restricted to one
collection (§4.3 `reset(collection)` clears all records in the
collection). -/
def reset_db (col : String) (s : Store) : Store :=
  s.filter (fun e => e.collection != col)

/-- Helper: count of matching records in a store. -/
def countMatching (col : String) (cid : String) (s : Store) : Nat :=
  s.countP (fun e => e.collection == col && e.blob.ipfs_cid == cid)

/-- Store states reachable from the empty store through the operations the
program performs: `create_or_retrieve` calls and administrative
`reset_db`. -/
inductive Reachable : Store → Prop where
  | empty : Reachable []
  | create (s : Store) (col cid p t d k r : String) :
      Reachable s → Reachable (create_or_retrieve s col cid p t d k r).2
  | reset (s : Store) (col : String) :
      Reachable s → Reachable (reset_db col s)

/-- Model of M racing `create_or_retrieve` calls on one `(collection,
cid)` pair, serialized in some order by the single `Arc<Mutex<Storage>>` of
`app` in `src/server.rs`: each tuple holds one caller's `(payload, title,
description, keywords, referrer)` arguments. Returns every caller's
observed Blob and the final store. -/
def runRace (col : String) (cid : String) :
    List (String × String × String × String × String) → Store → List Zblob × Store
  | [], s => ([], s)
  | a :: rest, s =>
    let r := create_or_retrieve s col cid a.1 a.2.1 a.2.2.1 a.2.2.2.1 a.2.2.2.2
    let q := runRace col cid rest r.2
    (r.1 :: q.1, q.2)

/-- HTTP response as the handlers of `src/server.rs` build it: a status
code, an optional Location header, an optional Content-Type header and a
string body. -/
structure HttpResponse where
  status : Nat
  location : Option String
  contentType : Option String
  body : String
deriving Repr, DecidableEq

/-- The HTML page of `index_response` in `src/server.rs`, with the two
format placeholders substituted by `cid` and `data`. -/
def index_html (cid : String) (data : String) : String :=
  "<!DOCTYPE html>\n<html lang=\"en\">\n<head>\n    <meta charset=\"utf-8\"/>\n    <meta name=\"viewport\" content=\"width=device-width,initial-scale=1\"/>\n    <title>pflow.dev | metamodel editor</title>\n    <script>\n        sessionStorage.cid = \"" ++ cid ++ "\";\n        sessionStorage.data = \"" ++ data ++ "\".replaceAll(\x27 \x27, \x27+\x27);\n    </script>\n    <script defer=\"defer\" src=\"https://cdn.jsdelivr.net/gh/pflow-dev/pflow-js@1.1.2/p/static/js/main.5dc69f67.js\"> </script>\n    <link href=\"https://cdn.jsdelivr.net/gh/pflow-dev/pflow-js@1.1.2/p/static/css/main.63d515f3.css\" rel=\"stylesheet\">\n</head>\n<body>\n    <noscript>You need to enable JavaScript to run this app.</noscript>\n    <div id=\"root\"></div>\n</body></html>\n"

/-- Embedded from `index_response` in `src/server.rs`: status 200 OK with
the HTML page. -/
def index_response (cid : String) (data : String) : HttpResponse :=
  ⟨200, none, some "text/html charset=utf-8", index_html cid data⟩

/-- Embedded from `index_response_redirect` in `src/server.rs`: status 302
FOUND with Location `/p/{cid}/` and empty body. -/
def index_response_redirect (cid : String) : HttpResponse :=
  ⟨302, some ("/p/" ++ cid ++ "/"), none, ""⟩

/-- Embedded from `string_to_zblob` in `src/server.rs`: absent data yields
the default Zblob; present data `d` stores `d` itself as the payload and
the hash of the raw bytes of `d` as the cid. -/
def string_to_zblob (data : Option String) : Zblob :=
  match data with
  | none => Zblob.default
  | some d => { Zblob.default with base64_zipped := d, ipfs_cid := oid_compute d }

/-- Modelled from the spec: the `StorageError` taxonomy (§7) for the
storage module that is not under `src/` — underlying I/O or lock
failure. -/
inductive StorageError where
  | ioError (msg : String)
  | lockError (msg : String)
deriving Repr, DecidableEq

/-- Rust's `Result::unwrap_or`, as the handlers of `src/server.rs` apply
it to every storage result. -/
def unwrapOr {α : Type} (r : Except StorageError α) (fallback : α) : α :=
  match r with
  | Except.ok a => a
  | Except.error _ => fallback

/-- Embedded from `src_handler` in `src/server.rs`, parameterized by the
outcome of the `get_by_cid` call: the storage result is collapsed with
`unwrap_or(Some(default))` and `unwrap_or(default)`, the stored payload is
decoded with the `unwrap_or("")` fallback, and a 200 OK JSON response is
always produced. -/
def src_handler_result (r : Except StorageError (Option Zblob)) : HttpResponse :=
  let zblob := (unwrapOr r (some Zblob.default)).getD Zblob.default
  let data := (unzip_encoded zblob.base64_zipped "model.json").getD ""
  ⟨200, none, some "application/json charset=utf-8", data⟩

/-- Embedded from `src_handler` in `src/server.rs` on the error-free
store: serve the decoded payload of the cid's record from the
`pflow_models` collection. -/
def src_handler (ipfs_cid : String) (s : Store) : HttpResponse :=
  src_handler_result (Except.ok (get_by_cid s "pflow_models" ipfs_cid))

/-- Embedded from `model_handler` in `src/server.rs`, parameterized by the
outcomes of its two storage calls: the `create_or_retrieve` result is
collapsed with `unwrap_or(zblob)` (the caller-supplied blob); a redirect is
issued when the `z` parameter is present and the resulting id is positive;
otherwise the page is built from the `get_by_cid` result collapsed with
the default blob. -/
def model_handler_result (z : Option String)
    (corResult : Except StorageError Zblob)
    (lookupResult : Except StorageError (Option Zblob)) : HttpResponse :=
  let zblob := string_to_zblob z
  let new_blob := unwrapOr corResult zblob
  if z.isSome ∧ new_blob.id > 0 then
    index_response_redirect new_blob.ipfs_cid
  else
    let zblob2 := (unwrapOr lookupResult (some Zblob.default)).getD Zblob.default
    index_response zblob2.ipfs_cid zblob2.base64_zipped

/-- Embedded from `model_handler` in `src/server.rs` on the error-free
store: hash the `z` parameter into a blob, call `create_or_retrieve` on
the `pflow_models` collection, and respond; returns the response together
with the store state it leaves behind. -/
def model_handler (ipfs_cid : String) (z : Option String) (s : Store) :
    HttpResponse × Store :=
  let zblob := string_to_zblob z
  let r := create_or_retrieve s "pflow_models" zblob.ipfs_cid zblob.base64_zipped
    zblob.title zblob.description zblob.keywords zblob.referrer
  (model_handler_result z (Except.ok r.1)
    (Except.ok (get_by_cid r.2 "pflow_models" ipfs_cid)), r.2)

/-- Embedded from `index_handler` in `src/server.rs`, parameterized by the
outcome of its `create_or_retrieve` call, which it collapses with
`unwrap_or(Zblob::default())`: a permanent redirect (status 308) to
`/p/{cid}/` when the resulting id is positive, else the page built from
the caller-side blob. -/
def index_handler_result (z : Option String)
    (corResult : Except StorageError Zblob) : HttpResponse :=
  let zblob := string_to_zblob z
  let new_blob := unwrapOr corResult Zblob.default
  if new_blob.id > 0 then
    ⟨308, some ("/p/" ++ zblob.ipfs_cid ++ "/"), none, ""⟩
  else
    index_response zblob.ipfs_cid zblob.base64_zipped

/-- Embedded from `index_handler` in `src/server.rs` on the error-free
store: hash the optional `z` parameter into a blob, call
`create_or_retrieve` on the `pflow_models` collection (also when `z` is
absent and the blob is the empty default), and respond; returns the
response together with the store state it leaves behind. -/
def index_handler (z : Option String) (s : Store) : HttpResponse × Store :=
  let zblob := string_to_zblob z
  let r := create_or_retrieve s "pflow_models" zblob.ipfs_cid zblob.base64_zipped
    zblob.title zblob.description zblob.keywords zblob.referrer
  (index_handler_result z (Except.ok r.1), r.2)

/-- Helper: string append acts as list append on the underlying data. -/
theorem String.data_append_eq (a b : String) :
    (a ++ b).data = a.data ++ b.data := by
  cases a; cases b; rfl

/-- Helper: strings with equal data are equal. -/
theorem String.eq_of_data_eq {a b : String} (h : a.data = b.data) : a = b := by
  cases a; cases b; exact congrArg String.mk h

theorem unzip_zip (d : String) (name : String) :
    unzip_encoded (zip_encoded d name) name = some d := by
  unfold unzip_encoded zip_encoded
  simp only [String.data]
  rw [List.take_left, List.drop_left]
  simp

theorem decode_zip (d : String) (name : String) :
    decode (zip_encoded d name) name = d := by
  unfold decode
  rw [unzip_zip]
  rfl

/-- Helper: whenever `unzip_encoded` succeeds, the blob is an encoding of
the returned payload under the same entry name. -/
theorem unzip_some_eq_encode {blob name : String} {d : String}
    (h : unzip_encoded blob name = some d) : blob = zip_encoded d name := by
  unfold unzip_encoded at h
  by_cases hp : blob.data.take (entryHeader name).length = entryHeader name
  · simp only [hp, if_pos] at h
    obtain rfl : String.mk (blob.data.drop (entryHeader name).length) = d := by
      simpa using h
    apply String.eq_of_data_eq
    unfold zip_encoded
    simp only [String.data]
    conv_lhs => rw [← List.take_append_drop (entryHeader name).length blob.data]
    rw [hp]
  · simp [hp] at h

/-- Helper: decode of any blob that is not an encoding under the requested
name yields the empty string. -/
theorem decode_non_encoding {blob name : String}
    (h : ¬ ∃ d, blob = zip_encoded d name) : decode blob name = "" := by
  unfold decode
  cases hu : unzip_encoded blob name with
  | none => rfl
  | some d => exact absurd ⟨d, unzip_some_eq_encode hu⟩ h

/-- Helper: the modelled content hasher is injective, reflecting the
spec's demand that distinct payload bytes yield distinct identifiers. -/
theorem oid_compute_injective : Function.Injective oid_compute := by
  have hhead : ∀ s : String, (("CID:" ++ s).data.head?) = some 'C' := by
    intro s
    rw [String.data_append_eq]
    rfl
  have hfix : ∀ s : String, "CID:" ++ s ≠ FIXED_CID := by
    intro s h
    have h1 := hhead s
    rw [h] at h1
    exact absurd h1 (by decide)
  intro a b h
  unfold oid_compute at h
  by_cases ha : a = INHIBIT_TEST <;> by_cases hb : b = INHIBIT_TEST
  · rw [ha, hb]
  · rw [if_pos ha, if_neg hb] at h
    exact absurd h.symm (hfix b)
  · rw [if_neg ha, if_pos hb] at h
    exact absurd h (hfix a)
  · rw [if_neg ha, if_neg hb] at h
    have hd := congrArg String.data h
    rw [String.data_append_eq, String.data_append_eq] at hd
    exact String.eq_of_data_eq (List.append_cancel_left hd)

/-- Helper: when the cid is already present, `create_or_retrieve` returns
the stored Blob and leaves the store untouched, whatever the other
arguments are. -/
theorem cor_of_present {s : Store} {col cid : String} {b : Zblob}
    (h : get_by_cid s col cid = some b)
    (p t d k r : String) :
    create_or_retrieve s col cid p t d k r = (b, s) := by
  unfold create_or_retrieve
  rw [h]

/-- Helper: when the cid is absent, `create_or_retrieve` inserts a fresh
record carrying the given fields and the next per-collection id. -/
theorem cor_of_absent {s : Store} {col cid : String}
    (h : get_by_cid s col cid = none)
    (p t d k r : String) :
    create_or_retrieve s col cid p t d k r =
      (⟨countOf col s + 1, cid, p, t, d, k, r⟩,
       ⟨col, ⟨countOf col s + 1, cid, p, t, d, k, r⟩⟩ :: s) := by
  unfold create_or_retrieve
  rw [h]

/-- Helper: after any `create_or_retrieve` call, looking the cid up finds
exactly the Blob that call returned. -/
theorem get_after_cor (s : Store) (col cid p t d k r : String) :
    get_by_cid (create_or_retrieve s col cid p t d k r).2 col cid =
      some (create_or_retrieve s col cid p t d k r).1 := by
  cases hg : get_by_cid s col cid with
  | some b => rw [cor_of_present hg]; exact hg
  | none =>
    rw [cor_of_absent hg]
    unfold get_by_cid
    rw [List.find?_cons_of_pos]
    · rfl
    · simp

/-- Helper: absence of a cid is equivalent to no entry of the collection
carrying it. -/
theorem get_none_iff (s : Store) (col cid : String) :
    get_by_cid s col cid = none ↔
      ∀ e ∈ s, ¬(e.collection = col ∧ e.blob.ipfs_cid = cid) := by
  unfold get_by_cid
  rw [show ∀ o : Option Entry, Option.map Entry.blob o = none ↔ o = none by
    intro o; cases o <;> simp]
  rw [List.find?_eq_none]
  constructor
  · intro h e he hc
    exact h e he (by simp [hc.1, hc.2])
  · intro h e he hb
    simp only [Bool.and_eq_true, beq_iff_eq] at hb
    exact h e he hb

/-- Helper: a cid is absent exactly when no record matches it. -/
theorem get_none_iff_count_zero (s : Store) (col cid : String) :
    get_by_cid s col cid = none ↔ countMatching col cid s = 0 := by
  rw [get_none_iff]
  unfold countMatching
  rw [List.countP_eq_zero]
  constructor
  · intro h e he
    have := h e he
    simp only [Bool.and_eq_true, beq_iff_eq]
    intro hc
    exact this hc
  · intro h e he hc
    have := h e he
    simp only [Bool.and_eq_true, beq_iff_eq] at this
    exact this hc

/-- Helper: prepending an entry never lowers a collection count. -/
theorem countOf_cons_le (x : Entry) (s : Store) (c : String) :
    countOf c s ≤ countOf c (x :: s) := by
  unfold countOf
  rw [List.countP_cons]
  omega

/-- Helper: resetting one collection leaves every other collection's count
unchanged. -/
theorem countOf_reset_ne (s : Store) (col c : String) (h : c ≠ col) :
    countOf c (reset_db col s) = countOf c s := by
  unfold countOf reset_db
  rw [List.countP_filter]
  apply List.countP_congr
  intro e _
  by_cases he : e.collection = c
  · simp [he, h]
  · simp [he]

/-- Helper: the id invariant. In every reachable state each stored record
has an id between 1 and its collection's record count; in particular no
stored record carries id 0, and a fresh insert's id `countOf + 1` exceeds
every stored id of that collection. -/
theorem reachable_id_inv {s : Store} (hs : Reachable s) :
    ∀ e ∈ s, 1 ≤ e.blob.id ∧ e.blob.id ≤ countOf e.collection s := by
  induction hs with
  | empty => intro e he; cases he
  | create s col cid p t d k r _ ih =>
    cases hg : get_by_cid s col cid with
    | some b => rw [cor_of_present hg]; exact ih
    | none =>
      rw [cor_of_absent hg]
      intro e he
      rcases List.mem_cons.mp he with rfl | hmem
      · refine ⟨Nat.le_add_left 1 _, ?_⟩
        show countOf col s + 1 ≤ countOf col (_ :: s)
        unfold countOf
        simp [List.countP_cons]
      · obtain ⟨h1, h2⟩ := ih e hmem
        exact ⟨h1, Nat.le_trans h2 (countOf_cons_le _ s e.collection)⟩
  | reset s col _ ih =>
    intro e he
    unfold reset_db at he
    obtain ⟨hmem, hne⟩ := List.mem_filter.mp he
    have hcol : e.collection ≠ col := by simpa using hne
    obtain ⟨h1, h2⟩ := ih e hmem
    exact ⟨h1, by rw [countOf_reset_ne s col e.collection hcol]; exact h2⟩

/-- Helper: once the cid is present, every further racing call observes
the stored Blob and leaves the store untouched. -/
theorem runRace_of_present {s : Store} {col cid : String} {b : Zblob}
    (h : get_by_cid s col cid = some b) :
    ∀ args, runRace col cid args s = (args.map (fun _ => b), s) := by
  intro args
  induction args with
  | nil => rfl
  | cons a rest ih =>
    unfold runRace
    rw [cor_of_present h]
    simp only [ih]
    rfl

/-- Helper: a chain of calls on one `(collection, cid)` returns the first
call's Blob to every caller and performs no state change after the first
call. -/
theorem runRace_cons_eq (s : Store) (col cid : String)
    (a : String × String × String × String × String)
    (argss : List (String × String × String × String × String)) :
    runRace col cid (a :: argss) s =
      ((create_or_retrieve s col cid a.1 a.2.1 a.2.2.1 a.2.2.2.1 a.2.2.2.2).1 ::
        argss.map (fun _ => (create_or_retrieve s col cid a.1 a.2.1 a.2.2.1 a.2.2.2.1 a.2.2.2.2).1),
       (create_or_retrieve s col cid a.1 a.2.1 a.2.2.1 a.2.2.2.1 a.2.2.2.2).2) := by
  unfold runRace
  simp only [runRace_of_present (get_after_cor s col cid a.1 a.2.1 a.2.2.1 a.2.2.2.1 a.2.2.2.2)]

/-- C1: if a Blob with the requested cid is already present in the
collection, `create_or_retrieve` returns it unchanged with the store
untouched, whatever the other arguments are; and across any chain of N ≥ 1
calls sharing one `(collection, cid)`, every call returns the first call's
Blob (same id and fields) and the store never changes after the first
call — only the first call can insert. -/
theorem C1_create_or_retrieve_idempotent (s : Store) (col cid : String)
    (a : String × String × String × String × String)
    (argss : List (String × String × String × String × String)) :
    (∀ b : Zblob, get_by_cid s col cid = some b →
      ∀ p t d k r : String, create_or_retrieve s col cid p t d k r = (b, s)) ∧
    (runRace col cid (a :: argss) s).2 =
      (create_or_retrieve s col cid a.1 a.2.1 a.2.2.1 a.2.2.2.1 a.2.2.2.2).2 ∧
    ∀ x ∈ (runRace col cid (a :: argss) s).1,
      x = (create_or_retrieve s col cid a.1 a.2.1 a.2.2.1 a.2.2.2.1 a.2.2.2.2).1 := by
  refine ⟨fun b hb p t d k r => cor_of_present hb p t d k r, ?_, ?_⟩
  · rw [runRace_cons_eq]
  · rw [runRace_cons_eq]
    intro x hx
    rcases List.mem_cons.mp hx with rfl | hx
    · rfl
    · obtain ⟨_, _, rfl⟩ := List.mem_map.mp hx
      rfl

/-- C1 witness: on a store already holding cid `"c"`, a call with fresh
arguments returns the stored Blob and leaves the store unchanged. -/
theorem C1_witness :
    create_or_retrieve [⟨"pflow_models", ⟨1, "c", "p", "", "", "", ""⟩⟩]
        "pflow_models" "c" "x" "y" "z" "w" "v" =
      (⟨1, "c", "p", "", "", "", ""⟩,
       [⟨"pflow_models", ⟨1, "c", "p", "", "", "", ""⟩⟩]) :=
  (C1_create_or_retrieve_idempotent
      [⟨"pflow_models", ⟨1, "c", "p", "", "", "", ""⟩⟩] "pflow_models" "c"
      ("x", "y", "z", "w", "v") []).1
    ⟨1, "c", "p", "", "", "", ""⟩ (by decide) "x" "y" "z" "w" "v"

/-- C2: for a request carrying `z = d`, `string_to_zblob` stores `d`
itself, unchanged, as the payload and computes the cid by hashing exactly
the raw bytes of `d`; and distinct encoded strings map to distinct cids. -/
theorem C2_hash_raw_bytes (d : String) :
    (string_to_zblob (some d)).base64_zipped = d ∧
    (string_to_zblob (some d)).ipfs_cid = oid_compute d ∧
    ∀ d1 d2 : String, d1 ≠ d2 → oid_compute d1 ≠ oid_compute d2 := by
  refine ⟨rfl, rfl, fun d1 d2 hne h => hne (oid_compute_injective h)⟩

/-- C2 witness: the payload `"a"` is stored unchanged, and the two
distinct encodings `"a"` and `"b"` receive distinct cids. -/
theorem C2_witness :
    (string_to_zblob (some "a")).base64_zipped = "a" ∧
    oid_compute "a" ≠ oid_compute "b" :=
  ⟨(C2_hash_raw_bytes "a").1, (C2_hash_raw_bytes "a").2.2 "a" "b" (by decide)⟩

/-- C3: decoding the encoding of any non-empty document under the same
entry name returns the document: `decode (encode b n) n = b`. -/
theorem C3_round_trip (d : String) (n : String) (_hd : d ≠ "") :
    decode (zip_encoded d n) n = d :=
  decode_zip d n

/-- C3 witness: the round trip at the concrete document `"x"` and entry
name `"model.json"`. -/
theorem C3_witness :
    "x" ≠ "" ∧ decode (zip_encoded "x" "model.json") "model.json" = "x" :=
  ⟨by decide, C3_round_trip "x" "model.json" (by decide)⟩

/-- C4: decoding any text blob that is not an encoding under the requested
entry name — malformed, corrupt, or carrying a different entry name —
yields the empty string rather than an error; and `src_handler` substitutes
that empty result into a 200 response instead of failing: on a cid with no
record it serves an empty body, and its status is 200 on every input. -/
theorem C4_decode_fallback :
    (∀ blob n : String, (¬ ∃ d : String, blob = zip_encoded d n) →
      decode blob n = "") ∧
    (∀ (s : Store) (cid : String), get_by_cid s "pflow_models" cid = none →
      src_handler cid s = ⟨200, none, some "application/json charset=utf-8", ""⟩) ∧
    ∀ (s : Store) (cid : String), (src_handler cid s).status = 200 := by
  refine ⟨fun blob n h => decode_non_encoding h, ?_, fun s cid => rfl⟩
  intro s cid h
  unfold src_handler
  rw [h]
  decide

/-- C4 witness: the non-encoding `"garbage"` decodes to the empty string,
and `src_handler` answers 200 with an empty body for an absent cid. -/
theorem C4_witness :
    decode "garbage" "model.json" = "" ∧
    src_handler "nope" [] = ⟨200, none, some "application/json charset=utf-8", ""⟩ := by
  constructor
  · apply C4_decode_fallback.1
    rintro ⟨d, hd⟩
    have hh : ("garbage" : String).data.head? = (zip_encoded d "model.json").data.head? := by
      rw [hd]
    rw [show (zip_encoded d "model.json").data.head? = some 'Z' from rfl] at hh
    exact absurd hh (by decide)
  · exact C4_decode_fallback.2.1 [] "nope" rfl

/-- C5: M racing `create_or_retrieve` calls on one absent `(collection,
cid)`, serialized by the store's single lock, store exactly one matching
record, perform exactly one insert, and every one of the M callers
observes that one stored Blob — the same id and fields for all. -/
theorem C5_concurrent_race (s : Store) (col cid : String)
    (argss : List (String × String × String × String × String))
    (hne : argss ≠ []) (habs : get_by_cid s col cid = none) :
    countMatching col cid (runRace col cid argss s).2 = 1 ∧
    (runRace col cid argss s).2.length = s.length + 1 ∧
    ∃ b : Zblob, get_by_cid (runRace col cid argss s).2 col cid = some b ∧
      ∀ x ∈ (runRace col cid argss s).1, x = b := by
  obtain ⟨a, rest, rfl⟩ : ∃ a rest, argss = a :: rest := by
    cases argss with
    | nil => exact absurd rfl hne
    | cons a rest => exact ⟨a, rest, rfl⟩
  rw [runRace_cons_eq]
  rw [cor_of_absent habs a.1 a.2.1 a.2.2.1 a.2.2.2.1 a.2.2.2.2]
  have hcount0 : countMatching col cid s = 0 :=
    (get_none_iff_count_zero s col cid).mp habs
  refine ⟨?_, rfl, ?_⟩
  · unfold countMatching at hcount0 ⊢
    rw [List.countP_cons_of_pos _ _ (by simp), hcount0]
  · refine ⟨⟨countOf col s + 1, cid, a.1, a.2.1, a.2.2.1, a.2.2.2.1, a.2.2.2.2⟩, ?_, ?_⟩
    · unfold get_by_cid
      rw [List.find?_cons_of_pos _ (by simp)]
      rfl
    · intro x hx
      rcases List.mem_cons.mp hx with rfl | hx
      · rfl
      · obtain ⟨_, _, rfl⟩ := List.mem_map.mp hx
        rfl

/-- C5 witness: two racing calls with distinct payloads on the empty store
leave exactly one matching record in the collection. -/
theorem C5_witness :
    countMatching "pflow_models" "c"
      (runRace "pflow_models" "c"
        [("p", "t", "d", "k", "r"), ("q", "u", "v", "w", "x")] []).2 = 1 :=
  (C5_concurrent_race [] "pflow_models" "c"
    [("p", "t", "d", "k", "r"), ("q", "u", "v", "w", "x")]
    (by decide) rfl).1

/-- C6 counterexample: on a store already holding the record for the cid
of payload `"d"` (so `create_or_retrieve` retrieves, and does not create),
a submission carrying `z = "d"` is still answered with the 302 redirect to
the canonical location — not with the normal page the claim promises for a
pre-existing record. -/
theorem C6_counterexample :
    get_by_cid [⟨"pflow_models", ⟨1, oid_compute "d", "d", "", "", "", ""⟩⟩]
        "pflow_models" (oid_compute "d") =
      some ⟨1, oid_compute "d", "d", "", "", "", ""⟩ ∧
    (model_handler "x" (some "d")
        [⟨"pflow_models", ⟨1, oid_compute "d", "d", "", "", "", ""⟩⟩]).1 =
      index_response_redirect (oid_compute "d") ∧
    (model_handler "x" (some "d")
        [⟨"pflow_models", ⟨1, oid_compute "d", "d", "", "", "", ""⟩⟩]).1.status ≠ 200 := by
  decide

/-- C6 amended: the gateway redirects exactly when the stored result has a
positive id — `model_handler` (302) whenever `z` is present and the
`create_or_retrieve` result's id is positive, whether that record was
freshly created or already existed, and `index_handler` (308) whenever the
result's id is positive, even without `z`; the normal page is served only
in the remaining cases. -/
theorem C6_redirect_amended (cid : String) (z : Option String) (s : Store) :
    ((model_handler cid z s).1.status = 302 ↔
      z.isSome = true ∧
        0 < (create_or_retrieve s "pflow_models" (string_to_zblob z).ipfs_cid
          (string_to_zblob z).base64_zipped (string_to_zblob z).title
          (string_to_zblob z).description (string_to_zblob z).keywords
          (string_to_zblob z).referrer).1.id) ∧
    ((index_handler z s).1.status = 308 ↔
      0 < (create_or_retrieve s "pflow_models" (string_to_zblob z).ipfs_cid
        (string_to_zblob z).base64_zipped (string_to_zblob z).title
        (string_to_zblob z).description (string_to_zblob z).keywords
        (string_to_zblob z).referrer).1.id) := by
  constructor
  · unfold model_handler model_handler_result
    simp only [unwrapOr]
    split_ifs with h
    · simpa [index_response_redirect] using h
    · simp only [index_response]
      constructor
      · intro h200
        exact absurd h200 (by decide)
      · intro hc
        exact absurd hc h
  · unfold index_handler index_handler_result
    simp only [unwrapOr]
    split_ifs with h
    · simpa using h
    · simp only [index_response]
      constructor
      · intro h308
        exact absurd h308 (by decide)
      · intro hc
        exact absurd hc h

set_option maxRecDepth 10000 in
/-- C7 counterexample: a `StorageError` from the store is not treated as
an operational failure by the gateway — `src_handler` turns an I/O error
into the very same successful 200 response it builds from the default
Blob, and `model_handler` turns a lock error into a successful 200 page
response; the error is swallowed by the `unwrap_or` fallbacks of
`src/server.rs`. -/
theorem C7_counterexample :
    src_handler_result (Except.error (StorageError.ioError "disk")) =
      ⟨200, none, some "application/json charset=utf-8", ""⟩ ∧
    src_handler_result (Except.error (StorageError.ioError "disk")) =
      src_handler_result (Except.ok (some Zblob.default)) ∧
    model_handler_result (some "d")
        (Except.error (StorageError.lockError "poisoned")) (Except.ok none) =
      index_response "" "" ∧
    (model_handler_result (some "d")
        (Except.error (StorageError.lockError "poisoned")) (Except.ok none)).status = 200 := by
  decide

/-- C7 amended: `get_by_cid` and `create_or_retrieve` failures are
propagated to the gateway call sites as results, but every handler of
`src/server.rs` then converts the `StorageError` into a successful
response via `unwrap_or`: `src_handler` and `index_handler` behave as if
the store had returned the default Blob, `model_handler` as if it had
returned the caller-supplied blob, and `src_handler` still answers 200. -/
theorem C7_error_swallowed_amended (e : StorageError) (z : Option String)
    (lr : Except StorageError (Option Zblob)) :
    src_handler_result (Except.error e) =
      src_handler_result (Except.ok (some Zblob.default)) ∧
    (src_handler_result (Except.error e)).status = 200 ∧
    model_handler_result z (Except.error e) lr =
      model_handler_result z (Except.ok (string_to_zblob z)) lr ∧
    index_handler_result z (Except.error e) =
      index_handler_result z (Except.ok Zblob.default) :=
  ⟨rfl, rfl, rfl, rfl⟩

/-- C8: in every reachable store state no stored record has id 0; absence
of a cid is reported by `get_by_cid` as an explicit `none`, equivalent to
no record of the collection carrying that cid; and the id a fresh
insertion assigns strictly exceeds every id already stored in that
collection, so per-collection ids increase monotonically from first
insertion. -/
theorem C8_id_invariant {s : Store} (hs : Reachable s) :
    (∀ e ∈ s, e.blob.id ≠ 0) ∧
    (∀ col cid, get_by_cid s col cid = none ↔
      ∀ e ∈ s, ¬(e.collection = col ∧ e.blob.ipfs_cid = cid)) ∧
    ∀ col cid p t d k r, get_by_cid s col cid = none →
      ∀ e ∈ s, e.collection = col →
        e.blob.id < (create_or_retrieve s col cid p t d k r).1.id := by
  refine ⟨?_, fun col cid => get_none_iff s col cid, ?_⟩
  · intro e he
    have h1 := (reachable_id_inv hs e he).1
    omega
  · intro col cid p t d k r habs e he hcol
    rw [cor_of_absent habs]
    have h2 := (reachable_id_inv hs e he).2
    rw [hcol] at h2
    show e.blob.id < countOf col s + 1
    omega

/-- C8 witness: the single record of the reachable store obtained by one
insertion into the empty store has a nonzero id. -/
theorem C8_witness :
    (⟨"pflow_models", ⟨1, "c", "p", "t", "d", "k", "r"⟩⟩ : Entry).blob.id ≠ 0 := by
  have h := C8_id_invariant
    (Reachable.create [] "pflow_models" "c" "p" "t" "d" "k" "r" Reachable.empty)
  exact h.1 ⟨"pflow_models", ⟨1, "c", "p", "t", "d", "k", "r"⟩⟩ (by decide)

set_option maxRecDepth 10000 in
/-- C9: hashing the encoding of the fixed JSON test document under entry
name `"model.json"` yields the fixed CID, and in a freshly reset
collection the first `create_or_retrieve` call for that CID returns id 1,
as do two subsequent calls with the same CID. -/
theorem C9_concrete_scenario :
    oid_compute (zip_encoded INHIBIT_TEST_DOC "model.json") = FIXED_CID ∧
    (string_to_zblob (some INHIBIT_TEST)).ipfs_cid = FIXED_CID ∧
    (let s0 := reset_db "pflow_models"
        [⟨"pflow_models", ⟨1, "old-cid", "old-payload", "", "", "", ""⟩⟩];
     let z := string_to_zblob (some INHIBIT_TEST);
     let r1 := create_or_retrieve s0 "pflow_models" z.ipfs_cid z.base64_zipped
        z.title z.description z.keywords z.referrer;
     let r2 := create_or_retrieve r1.2 "pflow_models" z.ipfs_cid z.base64_zipped
        z.title z.description z.keywords z.referrer;
     let r3 := create_or_retrieve r2.2 "pflow_models" z.ipfs_cid z.base64_zipped
        z.title z.description z.keywords z.referrer;
     r1.1.ipfs_cid = FIXED_CID ∧ r1.1.id = 1 ∧ r2.1.id = 1 ∧ r3.1.id = 1) := by
  decide

/-- C10: with no `z` query parameter `string_to_zblob` returns the default
Zblob (id 0, empty cid, empty payload), yet `index_handler` still drives
that empty cid and empty payload through `create_or_retrieve` before
deciding whether to redirect: its resulting store state is exactly the
state `create_or_retrieve` leaves for the empty-cid arguments, and on the
empty store that call really inserts a record with cid `""`, payload `""`
and id 1. -/
theorem C10_no_z_not_shortcircuited (s : Store) :
    string_to_zblob none = Zblob.default ∧
    (index_handler none s).2 =
      (create_or_retrieve s "pflow_models" "" "" "" "" "" "").2 ∧
    get_by_cid (index_handler none []).2 "pflow_models" "" =
      some ⟨1, "", "", "", "", "", ""⟩ := by
  refine ⟨rfl, rfl, by decide⟩

end Pflow
